import Mathlib

/-!
Verification development for the real-time AI relay subsystem of the
ai-gateway-hub repository: the WebSocket hub and client pumps
(internal/handlers/websocket.go), the provider registry with its Redis-backed
status cache (internal/services/provider_registry.go), and the subprocess
streaming Claude provider (internal/providers/claude_provider.go, with the
file helpers of internal/utils).

The Go code is shallowly embedded: pure computations become Lean functions,
the stateful hub loop becomes a step function on an explicit state, channel
sends become operations on an explicit mailbox value, and the side effects of
the streaming path (file writes, subprocess spawn, sink writes) become an
explicit event trace.
-/

namespace AIGW

/-! ## String helpers mirroring the Go standard library -/

/-- Whether the first character list is an initial segment of the second
(helper for the substring test used by strings.Contains). -/
def charsLead : List Char → List Char → Bool
  | [], _ => true
  | _ :: _, [] => false
  | a :: as, b :: bs => a == b && charsLead as bs

/-- Whether the first character list occurs contiguously inside the second. -/
def charsInside (sub : List Char) : List Char → Bool
  | [] => charsLead sub []
  | b :: bs => charsLead sub (b :: bs) || charsInside sub bs

/-- Models Go strings.Contains(s, sub). -/
def goContains (s sub : String) : Bool :=
  charsInside sub.toList s.toList

/-- Accumulator-based splitter behind goFields. -/
def fieldsAux : List Char → List Char → List String
  | acc, [] => if acc.isEmpty then [] else [String.mk acc.reverse]
  | acc, c :: cs =>
    if c.isWhitespace then
      if acc.isEmpty then fieldsAux [] cs
      else String.mk acc.reverse :: fieldsAux [] cs
    else fieldsAux (c :: acc) cs

/-- Models Go strings.Fields: split around runs of whitespace, no empty
fields. -/
def goFields (s : String) : List String :=
  fieldsAux [] s.toList

/-- Drop leading whitespace characters. -/
def dropLeadWS : List Char → List Char
  | [] => []
  | c :: cs => if c.isWhitespace then dropLeadWS cs else c :: cs

/-- Models Go strings.TrimSpace: strip leading and trailing whitespace. -/
def goTrimSpace (s : String) : String :=
  String.mk (dropLeadWS (dropLeadWS s.toList).reverse).reverse

/-- A single-quote character, written by code point to keep source lines
free of quote characters. -/
def sq : String := String.singleton (Char.ofNat 39)

/-! ## Provider data model (internal/providers/provider.go) -/

/-- Models the Go struct providers.ProviderStatus. -/
structure ProviderStatus where
  available : Bool
  status : String
  version : String
  details : String
deriving DecidableEq, Repr

/-! ## Claude provider configuration and argument building
(internal/providers/claude_provider.go) -/

/-- Construction-time configuration of ClaudeProvider: the four fields set by
NewClaudeProvider. -/
structure ClaudeConfig where
  cliPath : String
  logDir : String
  skipPermissions : Bool
  extraArgs : String
deriving DecidableEq, Repr

/-- Models ClaudeProvider.buildArgs: base arguments, then the
skip-permissions flag when enabled, then the whitespace-split extra
arguments when nonempty.  It reads only construction-time configuration. -/
def buildArgs (p : ClaudeConfig) (baseArgs : List String) : List String :=
  baseArgs
    ++ (if p.skipPermissions then ["--dangerously-skip-permissions"] else [])
    ++ (if p.extraArgs ≠ "" then goFields p.extraArgs else [])

/-! ## Availability probe (ClaudeProvider.GetStatus) -/

/-- The error value returned by cmd.CombinedOutput when the probe
invocation fails: whether it is an exec.Error wrapping exec.ErrNotFound,
and the text of err.Error(). -/
structure GoCmdError where
  execNotFound : Bool
  msg : String
deriving DecidableEq, Repr

/-- Outcome of running the version probe subprocess. -/
inductive ProbeOutcome
  | success (output : String)
  | failure (e : GoCmdError)
deriving DecidableEq, Repr

/-- The missing-executable test applied by GetStatus to a failed probe:
an exec.ErrNotFound error, or an error text containing one of the two
command-not-found substrings. -/
def errIsNotFound (e : GoCmdError) : Bool :=
  e.execNotFound
    || goContains e.msg "no such file or directory"
    || goContains e.msg "command not found"

/-- Models ClaudeProvider.GetStatus given the outcome of the
"cliPath --version" probe: classifies into not_installed / error / ready and
fills available, version (trimmed output) and details exactly as the Go
code does. -/
def claudeGetStatus (cliPath : String) (o : ProbeOutcome) : ProviderStatus :=
  match o with
  | .failure e =>
    if errIsNotFound e then
      { available := false, status := "not_installed", version := "",
        details := "Claude CLI not found at " ++ sq ++ cliPath ++ sq }
    else
      { available := false, status := "error", version := "",
        details := "Claude CLI error: " ++ e.msg }
  | .success out =>
    { available := true, status := "ready", version := goTrimSpace out,
      details := "Claude CLI is available" }

/-- How a subprocess invocation is launched: executable, argument vector,
and whether a cancellation deadline (context / timer) is attached to it. -/
structure ProbeInvocation where
  exe : String
  args : List String
  withDeadline : Bool
deriving DecidableEq, Repr

/-- Models the command construction inside GetStatus: it builds
exec.Command(p.cliPath, "--version") with os.Environ and calls
CombinedOutput directly — no context, deadline or timer is attached to the
probe (contrast StreamResponse, which uses exec.CommandContext). -/
def claudeProbeInvocation (cliPath : String) : ProbeInvocation :=
  { exe := cliPath, args := ["--version"], withDeadline := false }

/-! ## Provider registry (internal/services/provider_registry.go) -/

/-- Association-list lookup modelling a read of a Go map keyed by string. -/
def mapFind {α : Type} : List (String × α) → String → Option α
  | [], _ => none
  | (k, v) :: rest, key => if k == key then some v else mapFind rest key

/-- A registered provider as the registry observes it: identity plus the
deterministic results of its probe methods. -/
structure ProviderEntry where
  id : String
  name : String
  description : String
  probe : ProviderStatus
  available : Bool
deriving DecidableEq, Repr

/-- The registry's provider map. -/
structure RegistryState where
  providers : List (String × ProviderEntry)
deriving DecidableEq, Repr

/-- Models ProviderRegistry.Register: error (registry unchanged) when the id
is already present, otherwise the provider is stored under its id.  The
second component is the returned error message, none on success. -/
def registerProvider (r : RegistryState) (p : ProviderEntry) :
    RegistryState × Option String :=
  match mapFind r.providers p.id with
  | some _ => (r, some ("provider " ++ p.id ++ " already registered"))
  | none => ({ providers := r.providers ++ [(p.id, p)] }, none)

/-- Models ProviderRegistry.Get: the stored provider, or none (Go: the
error "provider id not found"). -/
def getProvider (r : RegistryState) (id : String) : Option ProviderEntry :=
  mapFind r.providers id

/-! ## Provider status cache (Redis-backed, 5-minute TTL) -/

/-- The fixed cache TTL: 5 minutes, in seconds. -/
def statusTTL : Nat := 300

/-- One cached status value with its Redis expiry instant. -/
structure CacheEntry where
  status : ProviderStatus
  expiresAt : Nat
deriving DecidableEq, Repr

/-- The shared status cache keyed by provider id. -/
abbrev StatusCache := List (String × CacheEntry)

/-- Models ProviderRegistry.getCachedStatus at a given instant: an entry
whose expiry has passed behaves exactly like a missing key. -/
def getCachedStatus (c : StatusCache) (id : String) (now : Nat) :
    Option ProviderStatus :=
  match mapFind c id with
  | some e => if now < e.expiresAt then some e.status else none
  | none => none

/-- Models ProviderRegistry.cacheStatus: the entry for the id is replaced
atomically with expiry now + TTL. -/
def cacheStatus (c : StatusCache) (id : String) (s : ProviderStatus)
    (now : Nat) : StatusCache :=
  (id, { status := s, expiresAt := now + statusTTL })
    :: c.filter (fun kv => kv.1 != id)

/-- Models ProviderRegistry.GetProviderStatus with the cache backend
configured (non-nil Redis client), the asynchronous write-back taken as
completed before the next query is served.  Returns none when the provider
id is unregistered; otherwise the status served, the cache afterwards, and
whether the expensive provider probe ran. -/
def getProviderStatus (r : RegistryState) (c : StatusCache) (id : String)
    (now : Nat) : Option (ProviderStatus × StatusCache × Bool) :=
  match mapFind r.providers id with
  | none => none
  | some p =>
    match getCachedStatus c id now with
    | some s => some (s, c, false)
    | none => some (p.probe, cacheStatus c id p.probe now, true)

/-! ## Connection hub (Hub.Run in internal/handlers/websocket.go) -/

/-- Connection identity (the Go map is keyed by the client pointer). -/
abbrev ClientId := Nat

/-- Outbound mailbox capacity: the send channel is created with buffer 256. -/
def mailboxCap : Nat := 256

/-- Hub state: the live client set paired with each client's outbound
mailbox depth, plus the record of close(client.send) events performed. -/
structure HubState where
  clients : List (ClientId × Nat)
  closes : List ClientId
deriving DecidableEq, Repr

/-- The three operations the coordinating loop selects over. -/
inductive HubOp
  | register (c : ClientId)
  | unregister (c : ClientId)
  | broadcast
deriving DecidableEq, Repr

/-- The identities currently in the live set. -/
def hubKeys (s : HubState) : List ClientId := s.clients.map Prod.fst

/-- One iteration of Hub.Run.  register: map insert (a present key keeps its
mailbox).  unregister: when present, delete and close the mailbox; otherwise
nothing.  broadcast: each client with mailbox room gets the message queued;
a client with a full mailbox is closed and deleted instead. -/
def hubStep (s : HubState) (op : HubOp) : HubState :=
  match op with
  | .register c =>
    if c ∈ hubKeys s then s
    else { s with clients := s.clients ++ [(c, 0)] }
  | .unregister c =>
    if c ∈ hubKeys s then
      { clients := s.clients.filter (fun kv => kv.1 != c),
        closes := s.closes ++ [c] }
    else s
  | .broadcast =>
    { clients := (s.clients.filter (fun kv => kv.2 < mailboxCap)).map
        (fun kv => (kv.1, kv.2 + 1)),
      closes := s.closes
        ++ (s.clients.filter (fun kv => ¬ kv.2 < mailboxCap)).map Prod.fst }

/-- The hub loop processing a sequence of operations. -/
def hubRun (ops : List HubOp) (s : HubState) : HubState :=
  ops.foldl hubStep s

/-- The state built by NewHub: no clients, no closes. -/
def hubInit : HubState := { clients := [], closes := [] }

/-! ## Per-request stream writer (websocketWriter.Write) -/

/-- A client's outbound channel as the writer sees it. -/
structure WSChan where
  closed : Bool
  pending : Nat
deriving DecidableEq, Repr

/-- Outcome of websocketWriter.Write under Go channel semantics. -/
inductive WriteOutcome
  | ok (n : Nat) (c : WSChan)
  | errClosedPipe
  | panicked
deriving DecidableEq, Repr

/-- Models websocketWriter.Write on payload p: a select with one send case
and a default.  Go semantics: a send on a closed channel is always ready
and proceeds by panicking, so the default branch only fires for an open but
full buffer, where the code returns (0, io.ErrClosedPipe). -/
def wsWriterWrite (ch : WSChan) (p : List Char) : WriteOutcome :=
  if ch.closed then .panicked
  else if ch.pending < mailboxCap then .ok p.length { ch with pending := ch.pending + 1 }
  else .errClosedPipe

/-! ## Prompt handling (handleAIPrompt, sendError, sendStreamCompletion) -/

/-- A WebSocket envelope as marshalled by the handler (type plus the data
fields the handler fills; the timestamp is irrelevant to the claims). -/
structure Envelope where
  etype : String
  chatID : Int
  provider : String
  content : String
  isStream : Bool
deriving DecidableEq, Repr

/-- The envelope built by Client.sendError. -/
def errorEnvelope (msg : String) : Envelope :=
  { etype := "error", chatID := 0, provider := "", content := msg,
    isStream := false }

/-- One chunk envelope built by websocketWriter.Write. -/
def responseEnvelope (chatID : Int) (prov : String) (chunk : String) :
    Envelope :=
  { etype := "ai_response", chatID := chatID, provider := prov,
    content := chunk, isStream := true }

/-- The terminal envelope built by Client.sendStreamCompletion. -/
def endEnvelope (chatID : Int) (prov : String) : Envelope :=
  { etype := "ai_response_end", chatID := chatID, provider := prov,
    content := "", isStream := false }

/-- The data fields of an incoming ai_prompt envelope. -/
structure PromptData where
  chatID : Int
  provider : String
  content : String
deriving DecidableEq, Repr

/-- What one call of provider.StreamResponse did: the chunks it pushed
through the per-request writer, the error it returned (some for a provider
failure or a context timeout), and how many subprocesses it spawned. -/
structure StreamOutcome where
  chunks : List String
  errMsg : Option String
  spawns : Nat
deriving DecidableEq, Repr

/-- Models Client.handleAIPrompt: the sequence of envelopes the handler
hands to the originating connection's outbound mailbox, paired with the
number of subprocesses spawned.  Provider lookup failure and the
availability check each send a single error envelope and stop; an accepted
prompt streams its chunk envelopes, then always the completion envelope,
then an error envelope when StreamResponse returned an error. -/
def handleAIPrompt (r : RegistryState) (data : PromptData)
    (stream : StreamOutcome) : List Envelope × Nat :=
  match getProvider r data.provider with
  | none =>
    ([errorEnvelope ("Provider not found: provider " ++ data.provider
        ++ " not found")], 0)
  | some p =>
    if ¬ p.available then
      ([errorEnvelope "Provider is not available"], 0)
    else
      ((stream.chunks.map (responseEnvelope data.chatID data.provider))
          ++ [endEnvelope data.chatID data.provider]
          ++ (match stream.errMsg with
              | some m => [errorEnvelope ("Failed to get response: " ++ m)]
              | none => []),
        stream.spawns)

/-- Number of envelopes of a given type in a trace. -/
def countType (t : String) : List Envelope → Nat
  | [] => 0
  | e :: es => (if e.etype == t then 1 else 0) + countType t es

/-! ## Streaming execution trace (ClaudeProvider.StreamResponse) -/

/-- Externally visible effects of the streaming path. -/
inductive FsEvent
  | mkdirFor (path : String)
  | openFile (path : String)
  | fileWrite (path : String) (data : String)
  | sinkWrite (data : String)
  | spawn (exe : String) (args : List String) (stdinFile : String)
  | removeFile (path : String)
deriving DecidableEq, Repr

/-- What the spawned subprocess produced: stdout chunks as they come out of
the pipe, the collected stderr, and any error from cmd.Wait. -/
structure SubprocRun where
  stdoutChunks : List String
  stderr : String
  waitErr : Option String
deriving DecidableEq, Repr

/-- The per-chat transcript path: fmt.Sprintf with logDir, provider name
and chat id. -/
def chatLogPath (logDir : String) (chatID : Int) : String :=
  logDir ++ "/claude/chat_" ++ toString chatID ++ ".log"

/-- utils.CreateFile: EnsureDirForFile before OpenFile. -/
def createFileEvents (path : String) : List FsEvent :=
  [.mkdirFor path, .openFile path]

/-- ClaudeProvider.setupLogging: create the transcript, then write the
USER line and the ASSISTANT marker. -/
def setupLoggingEvents (logDir : String) (chatID : Int) (prompt : String) :
    List FsEvent :=
  createFileEvents (chatLogPath logDir chatID)
    ++ [.fileWrite (chatLogPath logDir chatID) ("USER: " ++ prompt ++ "\n"),
        .fileWrite (chatLogPath logDir chatID) "ASSISTANT: "]

/-- Models the successful flow of ClaudeProvider.StreamResponse as an event
trace: setupLogging, createTempPromptFile (tmpName chosen by the OS),
setupClaudeCommand plus cmd.Start (one spawn whose stdin is the temp file),
handleCommandExecution (the MultiWriter copies each stdout chunk to the
sink and to the transcript; nonempty stderr is appended to the transcript
as an ERROR annotation by handleStderr; then the trailing newline), and the
deferred temp-file removal. -/
def streamTrace (cfg : ClaudeConfig) (prompt : String) (chatID : Int)
    (tmpName : String) (run : SubprocRun) : List FsEvent :=
  setupLoggingEvents cfg.logDir chatID prompt
    ++ [.fileWrite tmpName prompt]
    ++ [.spawn cfg.cliPath (buildArgs cfg ["--print"]) tmpName]
    ++ (run.stdoutChunks.map
          (fun ch => [FsEvent.sinkWrite ch,
            FsEvent.fileWrite (chatLogPath cfg.logDir chatID) ch])).flatten
    ++ (if run.stderr ≠ "" then
          [.fileWrite (chatLogPath cfg.logDir chatID)
            ("\nERROR: " ++ run.stderr ++ "\n")]
        else [])
    ++ [.fileWrite (chatLogPath cfg.logDir chatID) "\n"]
    ++ [.removeFile tmpName]

/-- The payloads delivered to the caller-supplied sink, in order. -/
def sinkData : List FsEvent → List String
  | [] => []
  | .sinkWrite d :: es => d :: sinkData es
  | _ :: es => sinkData es

/-- The payloads written to the file at path p, in order. -/
def fileData (p : String) : List FsEvent → List String
  | [] => []
  | .fileWrite q d :: es => if q == p then d :: fileData p es else fileData p es
  | _ :: es => fileData p es

/-- All subprocess spawns in a trace: executable, argument vector, stdin
source file. -/
def spawnEvents : List FsEvent → List (String × List String × String)
  | [] => []
  | .spawn exe args stdin :: es => (exe, args, stdin) :: spawnEvents es
  | _ :: es => spawnEvents es

/-- True when no write to the file at path p precedes the creation of its
parent directory. -/
def dirReadyBefore (p : String) : List FsEvent → Bool
  | [] => true
  | .mkdirFor q :: es => if q == p then true else dirReadyBefore p es
  | .fileWrite q _ :: es => if q == p then false else dirReadyBefore p es
  | _ :: es => dirReadyBefore p es

/-! ## Theorems -/

/-- C10: every status value the Claude provider probe returns satisfies
Available = true exactly when Status = "ready"; the boolean and the state
enum never disagree. -/
theorem claude_available_iff_ready (path : String) (o : ProbeOutcome) :
    (claudeGetStatus path o).available = true
      ↔ (claudeGetStatus path o).status = "ready" := by
  cases o with
  | success out => simp [claudeGetStatus]
  | failure e =>
    by_cases h : errIsNotFound e = true
    · simp [claudeGetStatus, h]
    · simp [claudeGetStatus, h]

/-- Classification lemma: the availability probe maps the outcome of the
version-style no-op invocation into exactly one of not_installed
(executable missing, Available false), error (executable present but the
invocation failed, Available false) and ready (success, Available true
with the trimmed version output). -/
theorem claude_getStatus_classification (path : String) :
    (∀ out, claudeGetStatus path (.success out) =
      { available := true, status := "ready", version := goTrimSpace out,
        details := "Claude CLI is available" })
    ∧ (∀ e, errIsNotFound e = true → claudeGetStatus path (.failure e) =
      { available := false, status := "not_installed", version := "",
        details := "Claude CLI not found at " ++ sq ++ path ++ sq })
    ∧ (∀ e, errIsNotFound e = false → claudeGetStatus path (.failure e) =
      { available := false, status := "error", version := "",
        details := "Claude CLI error: " ++ e.msg })
    ∧ (∀ o, (claudeGetStatus path o).status = "ready"
        ∨ (claudeGetStatus path o).status = "not_installed"
        ∨ (claudeGetStatus path o).status = "error") := by
  refine ⟨fun out => rfl, fun e he => ?_, fun e he => ?_, fun o => ?_⟩
  · simp [claudeGetStatus, he]
  · simp [claudeGetStatus, he]
  · cases o with
    | success out => simp [claudeGetStatus]
    | failure e =>
      by_cases h : errIsNotFound e = true
      · simp [claudeGetStatus, h]
      · simp [claudeGetStatus, h]

/-- The classification lemma at concrete probe outcomes: a successful probe
with padded version output, a not-found failure, and an exit-status
failure. -/
theorem claude_getStatus_classification_witness :
    claudeGetStatus "claude" (.success " 1.2.3 ") =
      { available := true, status := "ready", version := "1.2.3",
        details := "Claude CLI is available" }
    ∧ claudeGetStatus "claude" (.failure ⟨true, "exec: claude: executable file not found in PATH"⟩) =
      { available := false, status := "not_installed", version := "",
        details := "Claude CLI not found at " ++ sq ++ "claude" ++ sq }
    ∧ claudeGetStatus "claude" (.failure ⟨false, "exit status 1"⟩) =
      { available := false, status := "error", version := "",
        details := "Claude CLI error: exit status 1" } :=
  ⟨by
    have h := (claude_getStatus_classification "claude").1 " 1.2.3 "
    simpa using h,
   (claude_getStatus_classification "claude").2.1
     ⟨true, "exec: claude: executable file not found in PATH"⟩ (by decide),
   (claude_getStatus_classification "claude").2.2.1
     ⟨false, "exit status 1"⟩ (by decide)⟩

/-- C3: registering a provider whose id is already registered returns an
error, leaves the provider map unchanged, and the originally registered
provider is still what Get returns for that id. -/
theorem register_duplicate_rejected (r : RegistryState) (p q : ProviderEntry)
    (h : getProvider r p.id = some q) :
    (registerProvider r p).2 =
        some ("provider " ++ p.id ++ " already registered")
    ∧ (registerProvider r p).1 = r
    ∧ getProvider (registerProvider r p).1 p.id = some q := by
  have hm : mapFind r.providers p.id = some q := h
  refine ⟨?_, ?_, ?_⟩ <;> simp [registerProvider, getProvider, hm]

/-- Witness for C3: a one-entry registry and a second provider with the
same id but different payload. -/
theorem register_duplicate_rejected_witness :
    getProvider ⟨[("claude", ⟨"claude", "Claude Code", "old", ⟨true, "ready", "1", "ok"⟩, true⟩)]⟩
        (ProviderEntry.id ⟨"claude", "Other", "new", ⟨false, "error", "", ""⟩, false⟩)
      = some ⟨"claude", "Claude Code", "old", ⟨true, "ready", "1", "ok"⟩, true⟩
    ∧ getProvider (registerProvider
        ⟨[("claude", ⟨"claude", "Claude Code", "old", ⟨true, "ready", "1", "ok"⟩, true⟩)]⟩
        ⟨"claude", "Other", "new", ⟨false, "error", "", ""⟩, false⟩).1
        (ProviderEntry.id ⟨"claude", "Other", "new", ⟨false, "error", "", ""⟩, false⟩)
      = some ⟨"claude", "Claude Code", "old", ⟨true, "ready", "1", "ok"⟩, true⟩ :=
  ⟨by decide,
   (register_duplicate_rejected
      ⟨[("claude", ⟨"claude", "Claude Code", "old", ⟨true, "ready", "1", "ok"⟩, true⟩)]⟩
      ⟨"claude", "Other", "new", ⟨false, "error", "", ""⟩, false⟩
      ⟨"claude", "Claude Code", "old", ⟨true, "ready", "1", "ok"⟩, true⟩
      (by decide)).2.2⟩

/-- C8 (divergence exhibit): a per-request stream writer whose target
connection has been torn down (outbound mailbox closed) does not return a
defined error: under Go select semantics the send case on a closed channel
is chosen and panics.  The defined io.ErrClosedPipe error is only returned
for an open-but-full mailbox. -/
theorem write_closed_mailbox_panics :
    wsWriterWrite { closed := true, pending := 0 } ("x".toList) = .panicked
    ∧ wsWriterWrite { closed := false, pending := mailboxCap } ("x".toList)
        = .errClosedPipe := by
  exact ⟨rfl, rfl⟩

/-- C9: with the cache backend configured, a status query that misses the
cache probes the provider and writes an entry with expiry TTL from now; a
second query within the TTL window is answered from that entry without a
new probe; a query at or past the expiry treats the cache as a miss and
probes again. -/
theorem status_cache_ttl (r : RegistryState) (c : StatusCache) (id : String)
    (p : ProviderEntry) (t1 t2 t3 : Nat)
    (hp : mapFind r.providers id = some p)
    (hmiss : getCachedStatus c id t1 = none)
    (h2 : t2 < t1 + statusTTL)
    (h3 : t1 + statusTTL ≤ t3) :
    getProviderStatus r c id t1
        = some (p.probe, cacheStatus c id p.probe t1, true)
    ∧ getProviderStatus r (cacheStatus c id p.probe t1) id t2
        = some (p.probe, cacheStatus c id p.probe t1, false)
    ∧ getProviderStatus r (cacheStatus c id p.probe t1) id t3
        = some (p.probe,
            cacheStatus (cacheStatus c id p.probe t1) id p.probe t3, true) := by
  have hhit : getCachedStatus (cacheStatus c id p.probe t1) id t2
      = some p.probe := by
    simp [getCachedStatus, cacheStatus, mapFind, h2]
  have hexp : getCachedStatus (cacheStatus c id p.probe t1) id t3 = none := by
    simp [getCachedStatus, cacheStatus, mapFind]
    omega
  refine ⟨?_, ?_, ?_⟩
  · simp [getProviderStatus, hp, hmiss]
  · simp [getProviderStatus, hp, hhit]
  · simp [getProviderStatus, hp, hexp]

/-- Witness for C9: one provider, empty cache, queries at times 100, 250
and 400 with TTL 300. -/
theorem status_cache_ttl_witness :
    getProviderStatus ⟨[("claude", ⟨"claude", "n", "d", ⟨true, "ready", "1", "ok"⟩, true⟩)]⟩ [] "claude" 100
      = some (⟨true, "ready", "1", "ok"⟩,
          cacheStatus [] "claude" ⟨true, "ready", "1", "ok"⟩ 100, true)
    ∧ getProviderStatus ⟨[("claude", ⟨"claude", "n", "d", ⟨true, "ready", "1", "ok"⟩, true⟩)]⟩
        (cacheStatus [] "claude" ⟨true, "ready", "1", "ok"⟩ 100) "claude" 250
      = some (⟨true, "ready", "1", "ok"⟩,
          cacheStatus [] "claude" ⟨true, "ready", "1", "ok"⟩ 100, false)
    ∧ getProviderStatus ⟨[("claude", ⟨"claude", "n", "d", ⟨true, "ready", "1", "ok"⟩, true⟩)]⟩
        (cacheStatus [] "claude" ⟨true, "ready", "1", "ok"⟩ 100) "claude" 400
      = some (⟨true, "ready", "1", "ok"⟩,
          cacheStatus (cacheStatus [] "claude" ⟨true, "ready", "1", "ok"⟩ 100)
            "claude" ⟨true, "ready", "1", "ok"⟩ 400, true) :=
  status_cache_ttl
    ⟨[("claude", ⟨"claude", "n", "d", ⟨true, "ready", "1", "ok"⟩, true⟩)]⟩
    [] "claude" ⟨"claude", "n", "d", ⟨true, "ready", "1", "ok"⟩, true⟩
    100 250 400 (by decide) (by decide) (by decide) (by decide)

/-- Unfolding equation for the register branch of the hub loop. -/
theorem hubStep_register_eq (s : HubState) (c : ClientId) :
    hubStep s (.register c)
      = if c ∈ hubKeys s then s
        else { s with clients := s.clients ++ [(c, 0)] } := rfl

/-- Unfolding equation for the unregister branch of the hub loop. -/
theorem hubStep_unregister_eq (s : HubState) (c : ClientId) :
    hubStep s (.unregister c)
      = if c ∈ hubKeys s then
          { clients := s.clients.filter (fun kv => kv.1 != c),
            closes := s.closes ++ [c] }
        else s := rfl

/-- Unfolding equation for the broadcast branch of the hub loop. -/
theorem hubStep_broadcast_eq (s : HubState) :
    hubStep s .broadcast
      = { clients := (s.clients.filter (fun kv => kv.2 < mailboxCap)).map
            (fun kv => (kv.1, kv.2 + 1)),
          closes := s.closes
            ++ (s.clients.filter (fun kv => ¬ kv.2 < mailboxCap)).map
                Prod.fst } := rfl

/-- Keys of a filtered client list form a sublist of the original keys. -/
theorem keys_filter_sublist (l : List (ClientId × Nat))
    (p : ClientId × Nat → Bool) :
    ((l.filter p).map Prod.fst).Sublist (l.map Prod.fst) :=
  (l.filter_sublist).map Prod.fst

/-- One hub iteration preserves distinctness of the live client set. -/
theorem hubStep_keys_nodup (s : HubState) (op : HubOp)
    (h : (hubKeys s).Nodup) : (hubKeys (hubStep s op)).Nodup := by
  cases op with
  | register c =>
    by_cases hc : c ∈ hubKeys s
    · rw [hubStep_register_eq, if_pos hc]
      exact h
    · rw [hubStep_register_eq, if_neg hc]
      unfold hubKeys at *
      rw [List.map_append]
      simp only [List.map_cons, List.map_nil]
      rw [List.nodup_append]
      exact ⟨h, List.nodup_singleton c, by
        intro x hx hx1
        simp only [List.mem_singleton] at hx1
        exact hc (hx1 ▸ hx)⟩
  | unregister c =>
    by_cases hc : c ∈ hubKeys s
    · rw [hubStep_unregister_eq, if_pos hc]
      exact h.sublist (keys_filter_sublist s.clients _)
    · rw [hubStep_unregister_eq, if_neg hc]
      exact h
  | broadcast =>
    rw [hubStep_broadcast_eq]
    unfold hubKeys at *
    simp only [List.map_map]
    have hcomp : (s.clients.filter (fun kv => decide (kv.2 < mailboxCap))).map
        (Prod.fst ∘ fun kv => (kv.1, kv.2 + 1))
        = (s.clients.filter (fun kv => decide (kv.2 < mailboxCap))).map Prod.fst := by
      simp [Function.comp]
    rw [hcomp]
    exact h.sublist (keys_filter_sublist s.clients _)

/-- The hub loop started from the empty state keeps the live set
duplicate-free. -/
theorem hubRun_keys_nodup (ops : List HubOp) :
    (hubKeys (hubRun ops hubInit)).Nodup := by
  suffices h : ∀ s : HubState, (hubKeys s).Nodup → (hubKeys (hubRun ops s)).Nodup by
    exact h hubInit (by simp [hubInit, hubKeys])
  induction ops with
  | nil => exact fun s hs => hs
  | cons op rest ih =>
    exact fun s hs => ih (hubStep s op) (hubStep_keys_nodup s op hs)

/-- After removing c, c is no longer among the keys. -/
theorem not_mem_keys_filter (l : List (ClientId × Nat)) (c : ClientId) :
    c ∉ (l.filter (fun kv => kv.1 != c)).map Prod.fst := by
  intro hmem
  rcases List.mem_map.1 hmem with ⟨kv, hkv, hfst⟩
  rcases List.mem_filter.1 hkv with ⟨_, hne⟩
  rw [hfst] at hne
  simp at hne

/-- C4: for every operation sequence processed by the coordinating loop
from the initial hub state, the live client set never holds duplicate
entries for one connection identity; unregister of a present connection
removes it and records exactly one mailbox close (so a repeated unregister
is a no-op), and unregister of an absent connection changes nothing. -/
theorem hub_live_set_invariant (ops : List HubOp) (c : ClientId) :
    (hubKeys (hubRun ops hubInit)).Nodup
    ∧ (c ∈ hubKeys (hubRun ops hubInit) →
        (hubStep (hubRun ops hubInit) (.unregister c)).clients
            = (hubRun ops hubInit).clients.filter (fun kv => kv.1 != c)
        ∧ c ∉ hubKeys (hubStep (hubRun ops hubInit) (.unregister c))
        ∧ (hubStep (hubRun ops hubInit) (.unregister c)).closes.count c
            = (hubRun ops hubInit).closes.count c + 1
        ∧ hubStep (hubStep (hubRun ops hubInit) (.unregister c))
            (.unregister c)
            = hubStep (hubRun ops hubInit) (.unregister c))
    ∧ (c ∉ hubKeys (hubRun ops hubInit) →
        hubStep (hubRun ops hubInit) (.unregister c) = hubRun ops hubInit) := by
  set s := hubRun ops hubInit with hs
  refine ⟨hubRun_keys_nodup ops, fun hc => ?_, fun hc => ?_⟩
  · have hstep : hubStep s (.unregister c)
        = { clients := s.clients.filter (fun kv => kv.1 != c),
            closes := s.closes ++ [c] } := by
      rw [hubStep_unregister_eq, if_pos hc]
    refine ⟨by rw [hstep], ?_, ?_, ?_⟩
    · rw [hstep]
      exact not_mem_keys_filter s.clients c
    · rw [hstep]
      simp
    · have habs : c ∉ hubKeys (hubStep s (.unregister c)) := by
        rw [hstep]
        exact not_mem_keys_filter s.clients c
      rw [hubStep_unregister_eq (hubStep s (.unregister c)) c, if_neg habs]
  · rw [hubStep_unregister_eq, if_neg hc]

/-- Witness for C4: run register 1, register 2, broadcast, unregister 2,
then look at identity 1 (present) with the theorem, and check the absent
branch at identity 2 via the same instance. -/
theorem hub_live_set_invariant_witness :
    (1 ∈ hubKeys (hubRun [.register 1, .register 2, .broadcast, .unregister 2] hubInit))
    ∧ (hubStep (hubRun [.register 1, .register 2, .broadcast, .unregister 2] hubInit)
        (.unregister 1)).closes.count 1
      = (hubRun [.register 1, .register 2, .broadcast, .unregister 2] hubInit).closes.count 1 + 1 :=
  ⟨by decide,
   ((hub_live_set_invariant [.register 1, .register 2, .broadcast, .unregister 2] 1).2.1
     (by decide)).2.2.1⟩

/-- countType distributes over concatenation. -/
theorem countType_append (t : String) (a b : List Envelope) :
    countType t (a ++ b) = countType t a + countType t b := by
  induction a with
  | nil => simp [countType]
  | cons e es ih => simp [countType, ih]; omega

/-- No chunk envelope is a terminal completion envelope. -/
theorem countType_end_resp_map (cid : Int) (prov : String)
    (chunks : List String) :
    countType "ai_response_end"
      (chunks.map (responseEnvelope cid prov)) = 0 := by
  induction chunks with
  | nil => rfl
  | cons h t ih => simp [countType, responseEnvelope, ih]

/-- C1: an accepted prompt (provider lookup succeeded and the availability
check passed) hands exactly one terminal ai_response_end envelope to the
originating connection, whatever StreamResponse did: the completion is
sent unconditionally after the stream and the optional trailing error
envelope has a different type. -/
theorem prompt_terminal_exactly_once (r : RegistryState) (data : PromptData)
    (stream : StreamOutcome) (p : ProviderEntry)
    (hp : getProvider r data.provider = some p)
    (ha : p.available = true) :
    countType "ai_response_end" (handleAIPrompt r data stream).1 = 1 := by
  have h1 : handleAIPrompt r data stream
      = ((stream.chunks.map (responseEnvelope data.chatID data.provider))
          ++ [endEnvelope data.chatID data.provider]
          ++ (match stream.errMsg with
              | some m => [errorEnvelope ("Failed to get response: " ++ m)]
              | none => []),
        stream.spawns) := by
    unfold handleAIPrompt
    rw [hp]
    simp [ha]
  rw [h1]
  simp only [countType_append, countType_end_resp_map]
  cases stream.errMsg with
  | none => simp [countType, endEnvelope]
  | some m => simp [countType, endEnvelope, errorEnvelope]

/-- Witness for C1: a one-provider registry, an accepted prompt, and a
stream attempt that failed with a timeout after two chunks. -/
theorem prompt_terminal_exactly_once_witness :
    getProvider ⟨[("claude", ⟨"claude", "Claude Code", "d", ⟨true, "ready", "1", "ok"⟩, true⟩)]⟩
        (PromptData.provider ⟨42, "claude", "hi"⟩) =
      some ⟨"claude", "Claude Code", "d", ⟨true, "ready", "1", "ok"⟩, true⟩
    ∧ countType "ai_response_end"
        (handleAIPrompt
          ⟨[("claude", ⟨"claude", "Claude Code", "d", ⟨true, "ready", "1", "ok"⟩, true⟩)]⟩
          ⟨42, "claude", "hi"⟩ ⟨["a", "b"], some "context deadline exceeded", 1⟩).1 = 1 :=
  ⟨by decide,
   prompt_terminal_exactly_once
     ⟨[("claude", ⟨"claude", "Claude Code", "d", ⟨true, "ready", "1", "ok"⟩, true⟩)]⟩
     ⟨42, "claude", "hi"⟩ ⟨["a", "b"], some "context deadline exceeded", 1⟩
     ⟨"claude", "Claude Code", "d", ⟨true, "ready", "1", "ok"⟩, true⟩
     (by decide) (by decide)⟩

/-- C2 counterexample: submitting a prompt to the unregistered provider id
ghost on a registry holding only claude yields exactly the single
provider-not-found error envelope and spawns no subprocess, but NO terminal
ai_response_end envelope is emitted, contradicting the claim that a
response_end accompanies the error. -/
theorem prompt_unknown_provider_no_terminal :
    handleAIPrompt
        ⟨[("claude", ⟨"claude", "Claude Code", "d", ⟨true, "ready", "1", "ok"⟩, true⟩)]⟩
        ⟨42, "ghost", "hi"⟩ ⟨[], none, 0⟩
      = ([errorEnvelope "Provider not found: provider ghost not found"], 0)
    ∧ ¬ countType "ai_response_end"
        (handleAIPrompt
          ⟨[("claude", ⟨"claude", "Claude Code", "d", ⟨true, "ready", "1", "ok"⟩, true⟩)]⟩
          ⟨42, "ghost", "hi"⟩ ⟨[], none, 0⟩).1 = 1 := by
  refine ⟨by decide, by decide⟩

/-- C2 as amended: a prompt naming an unregistered provider id produces
exactly one error envelope citing the provider-not-found failure, no
terminal ai_response_end envelope, and no subprocess spawn. -/
theorem prompt_unknown_provider_error_only (r : RegistryState)
    (data : PromptData) (stream : StreamOutcome)
    (h : getProvider r data.provider = none) :
    (handleAIPrompt r data stream).1
        = [errorEnvelope ("Provider not found: provider " ++ data.provider
            ++ " not found")]
    ∧ countType "error" (handleAIPrompt r data stream).1 = 1
    ∧ countType "ai_response_end" (handleAIPrompt r data stream).1 = 0
    ∧ (handleAIPrompt r data stream).2 = 0 := by
  have h1 : handleAIPrompt r data stream
      = ([errorEnvelope ("Provider not found: provider " ++ data.provider
          ++ " not found")], 0) := by
    unfold handleAIPrompt
    rw [h]
  rw [h1]
  refine ⟨rfl, ?_, ?_, rfl⟩ <;> simp [countType, errorEnvelope]

/-- Witness for C2 (amended): the ghost scenario on a registry holding only
the claude provider. -/
theorem prompt_unknown_provider_error_only_witness :
    getProvider ⟨[("claude", ⟨"claude", "Claude Code", "d", ⟨true, "ready", "1", "ok"⟩, true⟩)]⟩
        (PromptData.provider ⟨42, "ghost", "hi"⟩) = none
    ∧ (handleAIPrompt
        ⟨[("claude", ⟨"claude", "Claude Code", "d", ⟨true, "ready", "1", "ok"⟩, true⟩)]⟩
        ⟨42, "ghost", "hi"⟩ ⟨[], none, 0⟩).2 = 0 :=
  ⟨by decide,
   (prompt_unknown_provider_error_only
     ⟨[("claude", ⟨"claude", "Claude Code", "d", ⟨true, "ready", "1", "ok"⟩, true⟩)]⟩
     ⟨42, "ghost", "hi"⟩ ⟨[], none, 0⟩ (by decide)).2.2.2⟩

/-- sinkData distributes over concatenation. -/
theorem sinkData_append (a b : List FsEvent) :
    sinkData (a ++ b) = sinkData a ++ sinkData b := by
  induction a with
  | nil => rfl
  | cons e es ih => cases e <;> simp [sinkData, ih]

/-- fileData distributes over concatenation. -/
theorem fileData_append (p : String) (a b : List FsEvent) :
    fileData p (a ++ b) = fileData p a ++ fileData p b := by
  induction a with
  | nil => rfl
  | cons e es ih =>
    cases e with
    | fileWrite q d =>
      simp only [List.cons_append, fileData]
      by_cases hq : (q == p) = true
      · simp [hq, ih]
      · simp [hq, ih]
    | mkdirFor q => simp [fileData, ih]
    | openFile q => simp [fileData, ih]
    | sinkWrite d => simp [fileData, ih]
    | spawn e a s => simp [fileData, ih]
    | removeFile q => simp [fileData, ih]

/-- spawnEvents distributes over concatenation. -/
theorem spawnEvents_append (a b : List FsEvent) :
    spawnEvents (a ++ b) = spawnEvents a ++ spawnEvents b := by
  induction a with
  | nil => rfl
  | cons e es ih => cases e <;> simp [spawnEvents, ih]

/-- The stdout copy segment delivers exactly the stdout chunks to the
sink. -/
theorem sinkData_copy_segment (lp : String) (chunks : List String) :
    sinkData ((chunks.map
      (fun ch => [FsEvent.sinkWrite ch, FsEvent.fileWrite lp ch])).flatten)
      = chunks := by
  induction chunks with
  | nil => rfl
  | cons h t ih => simp [sinkData, ih]

/-- The stdout copy segment appends exactly the stdout chunks to the
transcript. -/
theorem fileData_copy_segment (lp : String) (chunks : List String) :
    fileData lp ((chunks.map
      (fun ch => [FsEvent.sinkWrite ch, FsEvent.fileWrite lp ch])).flatten)
      = chunks := by
  induction chunks with
  | nil => rfl
  | cons h t ih => simp [fileData, ih]

/-- The stdout copy segment spawns nothing. -/
theorem spawnEvents_copy_segment (lp : String) (chunks : List String) :
    spawnEvents ((chunks.map
      (fun ch => [FsEvent.sinkWrite ch, FsEvent.fileWrite lp ch])).flatten)
      = [] := by
  induction chunks with
  | nil => rfl
  | cons h t ih => simp [spawnEvents, ih]

/-- C6: in the streaming execution, the caller-supplied sink receives
exactly the subprocess's stdout chunks (so stderr bytes never reach it);
the transcript receives the USER line, the ASSISTANT marker, every stdout
chunk, the stderr error annotation when stderr was nonempty, and the
trailing newline; and the transcript's parent directory is created before
its first write. -/
theorem stream_fanout (cfg : ClaudeConfig) (prompt : String) (chatID : Int)
    (tmpName : String) (run : SubprocRun)
    (hne : chatLogPath cfg.logDir chatID ≠ tmpName) :
    sinkData (streamTrace cfg prompt chatID tmpName run) = run.stdoutChunks
    ∧ fileData (chatLogPath cfg.logDir chatID)
        (streamTrace cfg prompt chatID tmpName run)
      = ["USER: " ++ prompt ++ "\n", "ASSISTANT: "]
          ++ run.stdoutChunks
          ++ (if run.stderr ≠ "" then ["\nERROR: " ++ run.stderr ++ "\n"]
              else [])
          ++ ["\n"]
    ∧ dirReadyBefore (chatLogPath cfg.logDir chatID)
        (streamTrace cfg prompt chatID tmpName run) = true
    ∧ (∀ e1 e2 : String,
        sinkData (streamTrace cfg prompt chatID tmpName
          { run with stderr := e1 })
        = sinkData (streamTrace cfg prompt chatID tmpName
          { run with stderr := e2 })) := by
  have htmp : (tmpName == chatLogPath cfg.logDir chatID) = false := by
    rw [beq_eq_false_iff_ne]
    exact fun hh => hne hh.symm
  have hsink : ∀ e : String,
      sinkData (streamTrace cfg prompt chatID tmpName
        { run with stderr := e }) = run.stdoutChunks := by
    intro e
    by_cases hs : e = "" <;>
      simp [streamTrace, setupLoggingEvents, createFileEvents, hs,
        sinkData_append, sinkData_copy_segment, sinkData]
  refine ⟨?_, ?_, ?_, fun e1 e2 => (hsink e1).trans (hsink e2).symm⟩
  · have h := hsink run.stderr
    simpa using h
  · by_cases hs : run.stderr = "" <;>
      simp [streamTrace, setupLoggingEvents, createFileEvents, hs,
        fileData_append, fileData_copy_segment, fileData, htmp]
  · simp [streamTrace, setupLoggingEvents, createFileEvents, dirReadyBefore]

/-- Witness for C6: concrete configuration, prompt, chat id 7, a temp file
under /tmp, two stdout chunks and nonempty stderr. -/
theorem stream_fanout_witness :
    chatLogPath "/logs" 7 ≠ "/tmp/claude-prompt-1.txt"
    ∧ sinkData (streamTrace ⟨"/bin/claude", "/logs", true, ""⟩ "hi" 7
        "/tmp/claude-prompt-1.txt" ⟨["o1", "o2"], "boom", none⟩)
      = ["o1", "o2"]
    ∧ fileData (chatLogPath "/logs" 7)
        (streamTrace ⟨"/bin/claude", "/logs", true, ""⟩ "hi" 7
          "/tmp/claude-prompt-1.txt" ⟨["o1", "o2"], "boom", none⟩)
      = ["USER: hi\n", "ASSISTANT: ", "o1", "o2", "\nERROR: boom\n", "\n"] := by
  refine ⟨by decide, ?_, ?_⟩
  · exact (stream_fanout ⟨"/bin/claude", "/logs", true, ""⟩ "hi" 7
      "/tmp/claude-prompt-1.txt" ⟨["o1", "o2"], "boom", none⟩ (by decide)).1
  · have h := (stream_fanout ⟨"/bin/claude", "/logs", true, ""⟩ "hi" 7
      "/tmp/claude-prompt-1.txt" ⟨["o1", "o2"], "boom", none⟩ (by decide)).2.1
    simpa using h

/-- C7 counterexample: with a concrete configuration and the prompt
SECRETPROMPT, the streaming trace writes a transcript line containing the
prompt to the per-chat log file, which is not the private temporary file,
so the prompt is not written ONLY to the temporary input file. -/
theorem stream_prompt_in_transcript :
    FsEvent.fileWrite (chatLogPath "/logs" 7) ("USER: SECRETPROMPT\n")
        ∈ streamTrace ⟨"/bin/claude", "/logs", true, ""⟩ "SECRETPROMPT" 7
            "/tmp/claude-prompt-1.txt" ⟨["ok"], "", none⟩
    ∧ goContains ("USER: SECRETPROMPT\n") "SECRETPROMPT" = true
    ∧ chatLogPath "/logs" 7 ≠ "/tmp/claude-prompt-1.txt" := by
  refine ⟨by decide, by decide, by decide⟩

/-- C7 as amended: the streaming execution writes the prompt to the private
temporary file that is fed to the subprocess's standard input (and echoes
it into the transcript's USER line, never into a command-line argument):
the single spawn uses the temp file as stdin and an argument vector built
purely from construction-time configuration, identical for any two
prompts. -/
theorem stream_argv_prompt_independent (cfg : ClaudeConfig)
    (p1 p2 : String) (chatID : Int) (tmp : String) (run : SubprocRun) :
    spawnEvents (streamTrace cfg p1 chatID tmp run)
        = [(cfg.cliPath, buildArgs cfg ["--print"], tmp)]
    ∧ FsEvent.fileWrite tmp p1 ∈ streamTrace cfg p1 chatID tmp run
    ∧ spawnEvents (streamTrace cfg p1 chatID tmp run)
        = spawnEvents (streamTrace cfg p2 chatID tmp run) := by
  have hsp : ∀ q : String,
      spawnEvents (streamTrace cfg q chatID tmp run)
        = [(cfg.cliPath, buildArgs cfg ["--print"], tmp)] := by
    intro q
    by_cases hs : run.stderr = "" <;>
      simp [streamTrace, setupLoggingEvents, createFileEvents, hs,
        spawnEvents_append, spawnEvents_copy_segment, spawnEvents]
  refine ⟨hsp p1, ?_, (hsp p1).trans (hsp p2).symm⟩
  simp [streamTrace, setupLoggingEvents, createFileEvents]

/-- C5 counterexample: the availability probe of the configured executable
is a version-style no-op invocation, but it carries NO timeout: GetStatus
builds it with exec.Command and calls CombinedOutput directly, attaching
no deadline, so the probe does not run "with a short timeout" as
claimed. -/
theorem claude_probe_runs_without_deadline :
    (claudeProbeInvocation "claude").args = ["--version"]
    ∧ (claudeProbeInvocation "claude").withDeadline = false
    ∧ ¬ (claudeProbeInvocation "claude").withDeadline = true := by
  refine ⟨rfl, rfl, by decide⟩

/-- C5 as amended: the availability probe runs a version-style no-op
invocation of the configured executable with no timeout or deadline
attached, and classifies its outcome into exactly one of: status
not_installed with Available=false when the executable is missing, error
with Available=false when the executable exists but the invocation fails,
and ready with Available=true and the trimmed version output when it
succeeds. -/
theorem claude_probe_shape_and_classification (path : String) :
    (claudeProbeInvocation path).exe = path
    ∧ (claudeProbeInvocation path).args = ["--version"]
    ∧ (claudeProbeInvocation path).withDeadline = false
    ∧ (∀ out, claudeGetStatus path (.success out) =
      { available := true, status := "ready", version := goTrimSpace out,
        details := "Claude CLI is available" })
    ∧ (∀ e, errIsNotFound e = true → claudeGetStatus path (.failure e) =
      { available := false, status := "not_installed", version := "",
        details := "Claude CLI not found at " ++ sq ++ path ++ sq })
    ∧ (∀ e, errIsNotFound e = false → claudeGetStatus path (.failure e) =
      { available := false, status := "error", version := "",
        details := "Claude CLI error: " ++ e.msg })
    ∧ (∀ o, (claudeGetStatus path o).status = "ready"
        ∨ (claudeGetStatus path o).status = "not_installed"
        ∨ (claudeGetStatus path o).status = "error") := by
  obtain ⟨h1, h2, h3, h4⟩ := claude_getStatus_classification path
  exact ⟨rfl, rfl, rfl, h1, h2, h3, h4⟩

/-- Witness for C5 (amended): the probe of the executable claude carries no
deadline, and the three classification branches at concrete outcomes. -/
theorem claude_probe_shape_and_classification_witness :
    (claudeProbeInvocation "claude").withDeadline = false
    ∧ claudeGetStatus "claude" (.success " 1.2.3 ") =
      { available := true, status := "ready", version := "1.2.3",
        details := "Claude CLI is available" }
    ∧ claudeGetStatus "claude"
        (.failure ⟨true, "exec: claude: executable file not found in PATH"⟩) =
      { available := false, status := "not_installed", version := "",
        details := "Claude CLI not found at " ++ sq ++ "claude" ++ sq }
    ∧ claudeGetStatus "claude" (.failure ⟨false, "exit status 1"⟩) =
      { available := false, status := "error", version := "",
        details := "Claude CLI error: exit status 1" } :=
  ⟨(claude_probe_shape_and_classification "claude").2.2.1,
   by
    have h := (claude_probe_shape_and_classification "claude").2.2.2.1 " 1.2.3 "
    simpa using h,
   (claude_probe_shape_and_classification "claude").2.2.2.2.1
     ⟨true, "exec: claude: executable file not found in PATH"⟩ (by decide),
   (claude_probe_shape_and_classification "claude").2.2.2.2.2.1
     ⟨false, "exit status 1"⟩ (by decide)⟩

end AIGW
